import Mathlib

/-!
Shallow embedding of the TTS repository (src/app.py and src/cli.py).

`app.text_to_speech` validates that the text is truthy, builds a gTTS
object with the fixed language code "en", saves the synthesized audio to
the output file, and returns `True`.  `cli.main` parses a positional text
argument and an optional `-o (--output)` flag, prints a start message, calls
the converter, and prints a completion message.

The external synthesis engine (gTTS) is modelled as an opaque parameter
`Engine` mapping `(text, languageCode)` to either audio bytes or an error,
matching the spec interface `synthesize(text, languageCode) -> audioBytes`.
The file system is a map from paths to file contents.  Each run records a
trace of observable events (lines printed, engine invocations) so that
ordering and "engine never invoked" properties are expressible.
-/

namespace TTS

/-- Python truthiness of the `text` argument (`if not text:` in app.py):
`None` (modelled as `none`) and the empty string are falsy, every other
string is truthy. -/
def pyTruthy : Option String → Bool
  | none => false
  | some s => s != ""

/-- The string value handed to the engine (`gTTS(text=text, ...)`). -/
def strOf : Option String → String
  | none => ""
  | some s => s

/-- The external synthesis engine, opaque: `synthesize(text, languageCode)`
returns an audio byte stream or fails (network, quota, service error). -/
abbrev Engine := String → String → Except String (List Nat)

/-- File system: a map from path strings to file contents (byte lists). -/
abbrev FS := String → Option (List Nat)

/-- Create-or-overwrite write of `b` at path `p`. -/
def FS.write (fs : FS) (p : String) (b : List Nat) : FS :=
  fun q => if q = p then some b else fs q

/-- A file system with no files. -/
def FS.empty : FS := fun _ => none

/-- Errors a run can raise: the local `ValueError` from the empty-text
check, or an error propagated unmodified from the external engine. -/
inductive PyError where
  | valueError (msg : String)
  | engine (e : String)
deriving DecidableEq, Repr

/-- Observable events of a run: a printed line or an engine invocation
with its text and language code. -/
inductive Event where
  | print (line : String)
  | engineCall (text lang : String)
deriving DecidableEq, Repr

/-- Result of running the converter: the returned value or raised error,
the resulting file system, and the trace of engine invocations. -/
structure Outcome where
  result : Except PyError Bool
  fs : FS
  events : List Event

/-- Embedding of `app.text_to_speech` (src/app.py).  `if not text:` raises
`ValueError("Text cannot be empty")`; otherwise the engine is invoked with
the text and the fixed language code "en", the audio is written to
`output_filename`, and `True` is returned.  An engine failure propagates
unmodified. -/
def text_to_speech (eng : Engine) (text : Option String) (output_filename : String)
    (fs : FS) : Outcome :=
  if pyTruthy text then
    match eng (strOf text) "en" with
    | .ok bytes =>
        { result := .ok true
          fs := fs.write output_filename bytes
          events := [.engineCall (strOf text) "en"] }
    | .error e =>
        { result := .error (.engine e)
          fs := fs
          events := [.engineCall (strOf text) "en"] }
  else
    { result := .error (.valueError "Text cannot be empty")
      fs := fs
      events := [] }

/-- Default value of the `output_filename` parameter (src/app.py line 3). -/
def DEFAULT_OUTPUT : String := "output.mp3"

/-- `text_to_speech` called without an explicit output path. -/
def text_to_speech_default (eng : Engine) (text : Option String) (fs : FS) : Outcome :=
  text_to_speech eng text DEFAULT_OUTPUT fs

/-- Default value of the CLI `-o (--output)` flag (src/cli.py line 9). -/
def CLI_DEFAULT_OUTPUT : String := "output.mp3"

/-- Result of a CLI run: the event trace, the exit status (an uncaught
`PyError` terminates the run), and the resulting file system. -/
structure CliOutcome where
  events : List Event
  exit : Except PyError Unit
  fs : FS

/-- Embedding of `cli.main` (src/cli.py) after argument parsing: `text` is
the positional argument (argparse always yields a string), `output` the
`-o (--output)` value.  The start message is printed before the converter is
called; the completion message only after it returns; an uncaught error
skips the completion message and becomes the exit status. -/
def main (eng : Engine) (text output : String) (fs : FS) : CliOutcome :=
  let startMsg := "Converting text to speech: \x27" ++ text ++ "\x27"
  let o := text_to_speech eng (some text) output fs
  match o.result with
  | .ok _ =>
      { events := .print startMsg ::
          o.events ++ [.print ("Speech saved to \x27" ++ output ++ "\x27")]
        exit := .ok ()
        fs := o.fs }
  | .error e =>
      { events := .print startMsg :: o.events
        exit := .error e
        fs := o.fs }

/-- `main` with the `-o` flag omitted. -/
def main_default (eng : Engine) (text : String) (fs : FS) : CliOutcome :=
  main eng text CLI_DEFAULT_OUTPUT fs

/-- Process exit code: 0 on success, 1 for an uncaught exception
(Python's default uncaught-exception behavior). -/
def exitCode : Except PyError Unit → Nat
  | .ok _ => 0
  | .error _ => 1

/-- Whether a converter result is the local input-validation error. -/
def isValueError : Except PyError Bool → Bool
  | .error (.valueError _) => true
  | _ => false

/-- An event is either not an engine call, or an engine call whose
language code is "en". -/
def isEnCall : Event → Bool
  | .engineCall _ lang => lang == "en"
  | .print _ => true

/-- A concrete always-succeeding engine, used to instantiate theorems. -/
def eng0 : Engine := fun _ _ => .ok [7]

/-- A concrete always-failing engine, used to instantiate theorems. -/
def engFail : Engine := fun _ _ => .error "network error"

/-- C1: for every output path (any engine, any file-system state), calling
`text_to_speech` with the empty string raises
`ValueError "Text cannot be empty"`, invokes the engine zero times, and
leaves the file system exactly unchanged. -/
theorem claim_C1 (eng : Engine) (p : String) (fs : FS) :
    text_to_speech eng (some "") p fs =
      { result := .error (.valueError "Text cannot be empty")
        fs := fs
        events := [] } := by
  simp [text_to_speech, pyTruthy]

/-- C2: for every non-empty text `s` and path `p`, if the engine succeeds,
producing a (non-empty) audio byte stream, the call returns `True` and the
file at `p` holds exactly those bytes, hence has size > 0. -/
theorem claim_C2 (eng : Engine) (s p : String) (fs : FS) (bytes : List Nat)
    (hs : s ≠ "") (he : eng s "en" = .ok bytes) (hb : bytes ≠ []) :
    (text_to_speech eng (some s) p fs).result = .ok true ∧
    (text_to_speech eng (some s) p fs).fs p = some bytes ∧
    0 < bytes.length := by
  simp [text_to_speech, pyTruthy, strOf, hs, he, FS.write, List.length_pos, hb]

/-- C2 witness: a concrete successful run. -/
theorem claim_C2_witness :
    ("hi" ≠ "" ∧ eng0 "hi" "en" = .ok [7] ∧ [7] ≠ ([] : List Nat)) ∧
    ((text_to_speech eng0 (some "hi") "test_output.mp3" FS.empty).result = .ok true ∧
     (text_to_speech eng0 (some "hi") "test_output.mp3" FS.empty).fs "test_output.mp3" =
       some [7] ∧
     0 < ([7] : List Nat).length) :=
  ⟨⟨by decide, rfl, by decide⟩,
   claim_C2 eng0 "hi" "test_output.mp3" FS.empty [7] (by decide) rfl (by decide)⟩

/-- C3: for a truthy text on which the engine succeeds, a second call with
the same text and path leaves the file system exactly as the single call
did; moreover the contents at `p` after the second call are the bytes of
the most recent call alone, whatever engine `eng1`, file-system state
`fs1`, and previous contents at `p` the first call produced. -/
theorem claim_C3 (eng eng1 : Engine) (t : Option String) (p : String) (fs fs1 : FS)
    (bytes : List Nat) (ht : pyTruthy t = true) (he : eng (strOf t) "en" = .ok bytes) :
    (text_to_speech eng t p (text_to_speech eng t p fs).fs).fs =
      (text_to_speech eng t p fs).fs ∧
    (text_to_speech eng t p (text_to_speech eng1 t p fs1).fs).fs p = some bytes := by
  constructor
  · simp only [text_to_speech, ht, if_true, he]
    funext q
    by_cases hq : q = p <;> simp [FS.write, hq]
  · simp [text_to_speech, ht, he, FS.write]

/-- C3 witness: a concrete double call. -/
theorem claim_C3_witness :
    (pyTruthy (some "hi") = true ∧ eng0 (strOf (some "hi")) "en" = .ok [7]) ∧
    ((text_to_speech eng0 (some "hi") "out.mp3"
        (text_to_speech eng0 (some "hi") "out.mp3" FS.empty).fs).fs =
       (text_to_speech eng0 (some "hi") "out.mp3" FS.empty).fs ∧
     (text_to_speech eng0 (some "hi") "out.mp3"
        (text_to_speech engFail (some "hi") "out.mp3" FS.empty).fs).fs "out.mp3" =
       some [7]) :=
  ⟨⟨by decide, rfl⟩,
   claim_C3 eng0 engFail (some "hi") "out.mp3" FS.empty FS.empty [7] (by decide) rfl⟩

/-- C4: an engine error `e` on a truthy text propagates unmodified through
`text_to_speech`, and through the CLI `main`, whose run terminates with
that error and exit code 1 (non-zero). -/
theorem claim_C4 (eng : Engine) (t output : String) (fs : FS) (e : String)
    (ht : t ≠ "") (he : eng t "en" = .error e) :
    (text_to_speech eng (some t) output fs).result = .error (.engine e) ∧
    (main eng t output fs).exit = .error (.engine e) ∧
    exitCode (main eng t output fs).exit = 1 := by
  have hr : (text_to_speech eng (some t) output fs).result = .error (.engine e) := by
    simp [text_to_speech, pyTruthy, strOf, ht, he]
  refine ⟨hr, ?_, ?_⟩ <;> simp [main, hr, exitCode]

/-- C4 witness: a concrete failing engine. -/
theorem claim_C4_witness :
    ("hi" ≠ "" ∧ engFail "hi" "en" = .error "network error") ∧
    ((text_to_speech engFail (some "hi") "out.mp3" FS.empty).result =
       .error (.engine "network error") ∧
     (main engFail "hi" "out.mp3" FS.empty).exit = .error (.engine "network error") ∧
     exitCode (main engFail "hi" "out.mp3" FS.empty).exit = 1) :=
  ⟨⟨by decide, rfl⟩, claim_C4 engFail "hi" "out.mp3" FS.empty "network error" (by decide) rfl⟩

/-- C5: every run of `text_to_speech` either returns the constant `True`
or raises an error; `False` (or any other success value) is never
returned. -/
theorem claim_C5 (eng : Engine) (t : Option String) (p : String) (fs : FS) :
    (text_to_speech eng t p fs).result = .ok true ∨
    ∃ e, (text_to_speech eng t p fs).result = .error e := by
  unfold text_to_speech
  by_cases h : pyTruthy t = true
  · simp only [h, if_true]
    cases he : eng (strOf t) "en" <;> simp
  · simp only [Bool.not_eq_true] at h
    simp [h]

/-- C6: every engine invocation made by `text_to_speech` uses the fixed
language code "en"; no caller input selects another language. -/
theorem claim_C6 (eng : Engine) (t : Option String) (p : String) (fs : FS) :
    (text_to_speech eng t p fs).events.all isEnCall = true := by
  unfold text_to_speech
  by_cases h : pyTruthy t = true
  · simp only [h, if_true]
    cases he : eng (strOf t) "en" <;> simp [isEnCall]
  · simp only [Bool.not_eq_true] at h
    simp [h]

/-- C7: the converter's parameter default and the CLI `-o` default are both
the fixed name "output.mp3", and a call without an explicit path behaves
exactly as a call with "output.mp3". -/
theorem claim_C7 (eng : Engine) (t : Option String) (s : String) (fs : FS) :
    DEFAULT_OUTPUT = "output.mp3" ∧
    CLI_DEFAULT_OUTPUT = "output.mp3" ∧
    text_to_speech_default eng t fs = text_to_speech eng t "output.mp3" fs ∧
    main_default eng s fs = main eng s "output.mp3" fs :=
  ⟨rfl, rfl, rfl, rfl⟩

/-- C8: on every successful CLI run, the trace is: the start message
(containing the input text) is printed, then the converter invokes the
engine, then the completion message (referencing the chosen output path)
is printed — in that order. -/
theorem claim_C8 (eng : Engine) (text output : String) (fs : FS)
    (h : (main eng text output fs).exit = .ok ()) :
    (main eng text output fs).events =
      [.print ("Converting text to speech: \x27" ++ text ++ "\x27"),
       .engineCall text "en",
       .print ("Speech saved to \x27" ++ output ++ "\x27")] := by
  by_cases ht : pyTruthy (some text) = true
  · cases he : eng text "en" with
    | ok bytes => simp [main, text_to_speech, ht, he, strOf]
    | error e => simp [main, text_to_speech, ht, he, strOf] at h
  · simp only [Bool.not_eq_true] at ht
    simp [main, text_to_speech, ht] at h

/-- C8 witness: a concrete successful CLI run. -/
theorem claim_C8_witness :
    (main eng0 "hi" "out.mp3" FS.empty).exit = .ok () ∧
    (main eng0 "hi" "out.mp3" FS.empty).events =
      [.print ("Converting text to speech: \x27" ++ "hi" ++ "\x27"),
       .engineCall "hi" "en",
       .print ("Speech saved to \x27" ++ "out.mp3" ++ "\x27")] :=
  ⟨rfl, claim_C8 eng0 "hi" "out.mp3" FS.empty rfl⟩

/-- C9: `text_to_speech` raises `ValueError` exactly when the text is
falsy (`None` or the empty string); on every truthy text — the
whitespace-only string " " included — no validation error is raised and
exactly one synthesis attempt is made. -/
theorem claim_C9 (eng : Engine) (t : Option String) (p : String) (fs : FS) :
    isValueError (text_to_speech eng t p fs).result = !pyTruthy t ∧
    (text_to_speech eng t p fs).events =
      (if pyTruthy t then [.engineCall (strOf t) "en"] else []) ∧
    pyTruthy (some " ") = true := by
  refine ⟨?_, ?_, by decide⟩ <;>
    · unfold text_to_speech
      by_cases h : pyTruthy t = true
      · simp only [h, if_true]
        cases he : eng (strOf t) "en" <;> simp [isValueError]
      · simp only [Bool.not_eq_true] at h
        simp [h, isValueError]

/-- C10: the CLI prints the start message before any input validation: a
run whose text is the empty string still prints the start message, makes
no engine call, and then terminates with the validation error. -/
theorem claim_C10 (eng : Engine) (output : String) (fs : FS) :
    (main eng "" output fs).events =
      [.print "Converting text to speech: \x27\x27"] ∧
    (main eng "" output fs).exit = .error (.valueError "Text cannot be empty") ∧
    exitCode (main eng "" output fs).exit = 1 := by
  refine ⟨?_, ?_, ?_⟩ <;> simp [main, text_to_speech, pyTruthy, exitCode]

end TTS
